import Mathlib

/-!
Verification of the SWL (Simple Window Library) single-header Win32 wrapper,
`src/SWL.hpp`.  The library is a thin adaptation layer over the Win32 API:
it registers a window class, creates a window, pumps the OS message queue,
and dispatches a fixed set of message ids to overridable hooks.

The embedding below models the observable behavior of each operation as a
pure function: every Win32 call and every hook invocation is recorded as an
`Event` in a trace, platform responses (return values of the Win32 calls)
are inputs, and C++ exception propagation is an `Except` result.  User hook
overrides are arbitrary code, so each hook is parametrized by whether it
raises; `HandleOtherMessages` additionally returns a `BOOL`.
-/

namespace SWL

/-! ### Win32 constants, as used by `src/SWL.hpp` (values from the Windows headers) -/

def WM_NCCREATE : Nat := 0x0081
def WM_PAINT : Nat := 0x000F
def WM_CLOSE : Nat := 0x0010
def WM_QUIT : Nat := 0x0012
def WM_KEYDOWN : Nat := 0x0100
def WM_KEYUP : Nat := 0x0101
def WM_MOUSEMOVE : Nat := 0x0200
def WM_LBUTTONDOWN : Nat := 0x0201
def WM_LBUTTONUP : Nat := 0x0202
def WM_RBUTTONDOWN : Nat := 0x0204
def WM_RBUTTONUP : Nat := 0x0205
def WM_MBUTTONDOWN : Nat := 0x0207
def WM_MBUTTONUP : Nat := 0x0208

def VK_LBUTTON : Nat := 1
def VK_RBUTTON : Nat := 2
def VK_MBUTTON : Nat := 4

/-- Reinterpret the low 16 bits of a word as a signed 16-bit value
(the `(int)(short)` cast of the `GET_X_LPARAM`/`GET_Y_LPARAM` macros). -/
def toSigned16 (n : Nat) : Int :=
  if n % 65536 < 32768 then (n % 65536 : Nat) else (n % 65536 : Nat) - 65536

/-- `GET_X_LPARAM(lParam)` = `(int)(short)LOWORD(lParam)`. -/
def GET_X_LPARAM (lParam : Nat) : Int := toSigned16 (lParam % 65536)

/-- `GET_Y_LPARAM(lParam)` = `(int)(short)HIWORD(lParam)`. -/
def GET_Y_LPARAM (lParam : Nat) : Int := toSigned16 (lParam / 65536 % 65536)

/-- A Win32 `MSG` record, restricted to the fields `SWL.hpp` reads or that
the zero-initializer `MSG msg = {}` touches observably. -/
structure MSG where
  hwnd : Nat
  message : Nat
  wParam : Nat
  lParam : Nat
deriving DecidableEq, Repr

/-- The zero-initialized record `MSG msg = {};`. -/
def MSG.zero : MSG := ⟨0, 0, 0, 0⟩

/-- One observable step: either a Win32 call made by the wrapper or a hook
invocation dispatched to user code.  Traces of these events are the
observable behavior of the wrapper's operations. -/
inductive Event where
  | registerClassW
  | createWindowExW
  | showWindow (hWnd : Nat)
  | setWindowLongPtr (hWnd : Nat) (value : Nat)
  | beginPaint (hWnd : Nat)
  | endPaint (hWnd : Nat)
  | onPaint (hDC : Nat)
  | onKeyDown (key : Nat)
  | onKeyUp (key : Nat)
  | onMouseButtonDown (button : Nat)
  | onMouseButtonUp (button : Nat)
  | onMouseMove (x y : Int)
  | onClose
  | handleOtherMessages (uMsg : Nat)
  | postQuitMessage (code : Nat)
  | defWindowProc (hWnd : Nat) (uMsg : Nat)
  | getMessageW
  | peekMessageW
  | translateMessage (msg : MSG)
  | dispatchMessageW (msg : MSG)
deriving DecidableEq, Repr

/-- Behavior of the derived type's hook overrides.  The defaults in
`SWL.hpp` are no-ops, but a derived class may override any hook with
arbitrary code, so each `void` hook is parametrized by whether it throws;
`HandleOtherMessages` either throws or returns a `BOOL`. -/
structure HookSpec where
  onPaintThrows : Bool
  onKeyDownThrows : Bool
  onKeyUpThrows : Bool
  onMouseButtonDownThrows : Bool
  onMouseButtonUpThrows : Bool
  onMouseMoveThrows : Bool
  onCloseThrows : Bool
  handleOtherMessages : Nat → Except Unit Bool

/-- The hook behavior of the base class itself: every hook is a no-op and
`HandleOtherMessages` returns `FALSE`. -/
def HookSpec.base : HookSpec :=
  { onPaintThrows := false
    onKeyDownThrows := false
    onKeyUpThrows := false
    onMouseButtonDownThrows := false
    onMouseButtonUpThrows := false
    onMouseMoveThrows := false
    onCloseThrows := false
    handleOtherMessages := fun _ => .ok false }

/-- Responses of the host platform to the Win32 calls the wrapper makes.
Handles are `Nat` with `0` for `NULL`. -/
structure Platform where
  /-- `GetModuleHandleW(NULL)`. -/
  moduleHandle : Nat
  /-- Whether `RegisterClassW` returns a nonzero atom. -/
  registerClassOk : Bool
  /-- The handle `CreateWindowExW` assigns to the new window; `0` means
  creation fails and `CreateWindowExW` returns `NULL`. -/
  createdHWnd : Nat
  /-- `GetLastError()` at the moment an `ApplicationException` is constructed. -/
  lastError : Nat
  /-- The device context returned by `BeginPaint`. -/
  beginPaintHDC : Nat
  /-- The `LRESULT` returned by `DefWindowProc`. -/
  defWindowProcRet : Int

/-- Result of one `WndProc` call: the trace of events, the `LRESULT`
(or a propagated C++ exception from a hook, as `Except.error ()`), the
value of the window's `GWLP_USERDATA` slot afterwards, and the write to
`pDerivedType->m_hWnd` performed by the `WM_NCCREATE` branch (if any). -/
structure WndResult where
  events : List Event
  ret : Except Unit Int
  slotAfter : Nat
  hWndWrite : Option Nat

/-- `Application<DerivedType>::WndProc(hWnd, uMsg, wParam, lParam)` from
`src/SWL.hpp`.

Inputs beyond the four Win32 arguments: `slot` is the current value of the
window's `GWLP_USERDATA` slot (`0` when no shell association exists), and
`createParams` is `((CREATESTRUCT*)lParam)->lpCreateParams` — the shell
pointer the constructor passed to `CreateWindowExW` — which the source
reads only when `uMsg == WM_NCCREATE`.

On `WM_NCCREATE` the source stores `createParams` in the slot and writes
`hWnd` into the shell's `m_hWnd` field (the source performs this write
without a null check on the pointer).  On every other message the shell
pointer is read from the slot.  If the pointer is non-null the message is
routed by the `switch`; otherwise, and on `switch` fall-through, the call
ends in `DefWindowProc`. -/
def WndProc (p : Platform) (hooks : HookSpec) (slot createParams hWnd uMsg wParam lParam : Nat) :
    WndResult :=
  let pre : Nat × List Event × Nat × Option Nat :=
    if uMsg = WM_NCCREATE then
      (createParams, [Event.setWindowLongPtr hWnd createParams], createParams, some hWnd)
    else
      (slot, [], slot, none)
  match pre with
  | (pDerivedType, evs0, slotAfter, write) =>
    if pDerivedType ≠ 0 then
      if uMsg = WM_PAINT then
        let evs := evs0 ++ [Event.beginPaint hWnd, Event.onPaint p.beginPaintHDC]
        if hooks.onPaintThrows then ⟨evs, .error (), slotAfter, write⟩
        else ⟨evs ++ [Event.endPaint hWnd], .ok 1, slotAfter, write⟩
      else if uMsg = WM_KEYDOWN then
        let evs := evs0 ++ [Event.onKeyDown wParam]
        if hooks.onKeyDownThrows then ⟨evs, .error (), slotAfter, write⟩
        else ⟨evs, .ok 1, slotAfter, write⟩
      else if uMsg = WM_KEYUP then
        let evs := evs0 ++ [Event.onKeyUp wParam]
        if hooks.onKeyUpThrows then ⟨evs, .error (), slotAfter, write⟩
        else ⟨evs, .ok 1, slotAfter, write⟩
      else if uMsg = WM_LBUTTONDOWN then
        let evs := evs0 ++ [Event.onMouseButtonDown VK_LBUTTON]
        if hooks.onMouseButtonDownThrows then ⟨evs, .error (), slotAfter, write⟩
        else ⟨evs, .ok 1, slotAfter, write⟩
      else if uMsg = WM_MBUTTONDOWN then
        let evs := evs0 ++ [Event.onMouseButtonDown VK_MBUTTON]
        if hooks.onMouseButtonDownThrows then ⟨evs, .error (), slotAfter, write⟩
        else ⟨evs, .ok 1, slotAfter, write⟩
      else if uMsg = WM_RBUTTONDOWN then
        let evs := evs0 ++ [Event.onMouseButtonDown VK_RBUTTON]
        if hooks.onMouseButtonDownThrows then ⟨evs, .error (), slotAfter, write⟩
        else ⟨evs, .ok 1, slotAfter, write⟩
      else if uMsg = WM_LBUTTONUP then
        let evs := evs0 ++ [Event.onMouseButtonUp VK_LBUTTON]
        if hooks.onMouseButtonUpThrows then ⟨evs, .error (), slotAfter, write⟩
        else ⟨evs, .ok 1, slotAfter, write⟩
      else if uMsg = WM_MBUTTONUP then
        let evs := evs0 ++ [Event.onMouseButtonUp VK_MBUTTON]
        if hooks.onMouseButtonUpThrows then ⟨evs, .error (), slotAfter, write⟩
        else ⟨evs, .ok 1, slotAfter, write⟩
      else if uMsg = WM_RBUTTONUP then
        let evs := evs0 ++ [Event.onMouseButtonUp VK_RBUTTON]
        if hooks.onMouseButtonUpThrows then ⟨evs, .error (), slotAfter, write⟩
        else ⟨evs, .ok 1, slotAfter, write⟩
      else if uMsg = WM_MOUSEMOVE then
        let evs := evs0 ++ [Event.onMouseMove (GET_X_LPARAM lParam) (GET_Y_LPARAM lParam)]
        if hooks.onMouseMoveThrows then ⟨evs, .error (), slotAfter, write⟩
        else ⟨evs, .ok 1, slotAfter, write⟩
      else if uMsg = WM_CLOSE then
        let evs := evs0 ++ [Event.onClose]
        if hooks.onCloseThrows then ⟨evs, .error (), slotAfter, write⟩
        else ⟨evs ++ [Event.postQuitMessage 0], .ok 1, slotAfter, write⟩
      else
        let evs := evs0 ++ [Event.handleOtherMessages uMsg]
        match hooks.handleOtherMessages uMsg with
        | .error () => ⟨evs, .error (), slotAfter, write⟩
        | .ok true => ⟨evs, .ok 1, slotAfter, write⟩
        | .ok false =>
          ⟨evs ++ [Event.defWindowProc hWnd uMsg], .ok p.defWindowProcRet, slotAfter, write⟩
    else
      ⟨evs0 ++ [Event.defWindowProc hWnd uMsg], .ok p.defWindowProcRet, slotAfter, write⟩

/-! ### ApplicationException -/

/-- `SWL::ApplicationException`: its one field is the formatted diagnostic
string `m_info`. -/
structure ApplicationException where
  m_info : String
deriving DecidableEq, Repr

/-- The `ApplicationException(LPCWSTR lpInfo)` constructor: builds
`m_info` from the supplied description and `GetLastError()` sampled at
construction time. -/
def ApplicationException.construct (lpInfo : String) (lastError : Nat) : ApplicationException :=
  { m_info := lpInfo ++ " | Error code : " ++ toString lastError }

/-- `ApplicationException::ShowMessageBox`: passes `m_info.c_str()` to
`MessageBoxW`.  The model returns the displayed text; the platform's
last-error value current at report time is an input the source never
reads. -/
def ApplicationException.ShowMessageBox (e : ApplicationException)
    (_lastErrorAtReport : Nat) : String :=
  e.m_info

/-- `ApplicationException::ShowDebugOutput`: passes `m_info.c_str()` to
`OutputDebugStringW`.  The model returns the logged text; the last-error
value current at report time is an input the source never reads. -/
def ApplicationException.ShowDebugOutput (e : ApplicationException)
    (_lastErrorAtReport : Nat) : String :=
  e.m_info

/-! ### Construction -/

/-- The description string of the registration failure exception in
`Application::Application`. -/
def registrationErrorInfo : String := "Failed to register the window class (RegisterClassW)"

/-- The description string of the creation failure exception in
`Application::Application`. -/
def creationErrorInfo : String := "Failed to create a window (CreateWindowEx)"

/-- A failure propagating out of construction: either an
`ApplicationException` thrown by the constructor itself, or an exception
a user hook threw while `CreateWindowExW` was delivering `WM_NCCREATE`. -/
inductive Failure where
  | appExn (e : ApplicationException)
  | hookExn
deriving DecidableEq, Repr

/-- The shell state a successful construction establishes: the two member
fields of `Application`, plus the window's `GWLP_USERDATA` slot that
`WndProc` populated during creation. -/
structure ShellState where
  m_hInstance : Nat
  m_hWnd : Nat
  slot : Nat
deriving DecidableEq, Repr

/-- `Application<DerivedType>::Application` from `src/SWL.hpp`.

`selfPtr` is the `this` pointer of the shell under construction, passed to
`CreateWindowExW` as the creation parameter.  The constructor resolves the
module handle, registers the window class (throwing on failure, before any
creation attempt), and calls `CreateWindowExW`.  When creation succeeds the
platform delivers `WM_NCCREATE` to `DerivedType::WndProc` with
`lpCreateParams = this` and `hWnd` equal to the handle it then returns;
that call stores the association and back-fills `m_hWnd`.  The constructor
then assigns the returned handle to `m_hWnd`, throws if it is `NULL`, and
shows the window. -/
def Application.construct (p : Platform) (hooks : HookSpec) (selfPtr : Nat) :
    List Event × Except Failure ShellState :=
  if p.registerClassOk = false then
    ([Event.registerClassW],
     .error (.appExn (ApplicationException.construct registrationErrorInfo p.lastError)))
  else if p.createdHWnd = 0 then
    ([Event.registerClassW, Event.createWindowExW],
     .error (.appExn (ApplicationException.construct creationErrorInfo p.lastError)))
  else
    let nc := WndProc p hooks 0 selfPtr p.createdHWnd WM_NCCREATE 0 0
    match nc.ret with
    | .error () =>
      (Event.registerClassW :: Event.createWindowExW :: nc.events, .error .hookExn)
    | .ok _ =>
      (Event.registerClassW :: Event.createWindowExW :: nc.events
         ++ [Event.showWindow p.createdHWnd],
       .ok { m_hInstance := p.moduleHandle, m_hWnd := p.createdHWnd, slot := nc.slotAfter })

/-! ### Pump operations -/

/-- `Application<DerivedType>::WaitMessage` from `src/SWL.hpp`.
`getMessageRet` is the return value of the blocking `GetMessageW` call
(`-1` on failure, `0` when it retrieved `WM_QUIT`, nonzero otherwise) and
`retrieved` is the record it populated.  The source throws exactly when the
return value is `-1`; otherwise it translates and dispatches the retrieved
record — including when the return value is `0`. -/
def Application.WaitMessage (p : Platform) (getMessageRet : Int) (retrieved : MSG) :
    List Event × Except ApplicationException Unit :=
  if getMessageRet = -1 then
    ([Event.getMessageW],
     .error (ApplicationException.construct "Failed to get a message (GetMessageW)" p.lastError))
  else
    ([Event.getMessageW, Event.translateMessage retrieved, Event.dispatchMessageW retrieved],
     .ok ())

/-- `Application<DerivedType>::PollMessage` from `src/SWL.hpp`.
`messagePending` is the return value of `PeekMessageW(..., PM_REMOVE)` and
`peeked` the record it populated when a message was pending; when none was,
the local record keeps its zero initialization `MSG msg = {}`.  The source
never consults the return value: it calls `TranslateMessage` and
`DispatchMessageW` on the local record unconditionally. -/
def Application.PollMessage (messagePending : Bool) (peeked : MSG) : List Event :=
  let msg := if messagePending then peeked else MSG.zero
  [Event.peekMessageW, Event.translateMessage msg, Event.dispatchMessageW msg]

/-! ### Sample platform responses and hook behaviors used by witnesses -/

/-- A platform on which every call succeeds: module handle `3`, window
handle `7`, `BeginPaint` returns `9`, `DefWindowProc` returns `0`. -/
def samplePlatform : Platform :=
  { moduleHandle := 3
    registerClassOk := true
    createdHWnd := 7
    lastError := 5
    beginPaintHDC := 9
    defWindowProcRet := 0 }

/-- `samplePlatform` with `RegisterClassW` failing. -/
def samplePlatformRegFail : Platform := { samplePlatform with registerClassOk := false }

/-- A derived type whose `OnPaint` override throws. -/
def throwingPaintHooks : HookSpec := { HookSpec.base with onPaintThrows := true }

/-- A derived type whose `OnClose` override throws. -/
def throwingCloseHooks : HookSpec := { HookSpec.base with onCloseThrows := true }

/-- A derived type whose `HandleOtherMessages` override returns `TRUE`
for every message. -/
def handledHooks : HookSpec :=
  { HookSpec.base with handleOtherMessages := fun _ => .ok true }

/-- The message ids the `switch` in `WndProc` routes to a dedicated hook. -/
def routedMessages : List Nat :=
  [WM_PAINT, WM_KEYDOWN, WM_KEYUP,
   WM_LBUTTONDOWN, WM_MBUTTONDOWN, WM_RBUTTONDOWN,
   WM_LBUTTONUP, WM_MBUTTONUP, WM_RBUTTONUP,
   WM_MOUSEMOVE, WM_CLOSE]

/-! ### Claims -/

/-- C1.  The claim states that `PollMessage` with no pending message is a
no-op, translating and dispatching nothing.  The code does not consult the
`PeekMessageW` return value: on an empty queue it still passes the
zero-initialized `MSG` record to `TranslateMessage` and `DispatchMessageW`.
This theorem evaluates the code at the failing input (empty queue). -/
theorem c1_pollMessage_empty_queue_still_dispatches :
    Application.PollMessage false MSG.zero =
      [Event.peekMessageW, Event.translateMessage MSG.zero, Event.dispatchMessageW MSG.zero] ∧
    Event.translateMessage MSG.zero ∈ Application.PollMessage false MSG.zero ∧
    Event.dispatchMessageW MSG.zero ∈ Application.PollMessage false MSG.zero := by
  refine ⟨rfl, ?_, ?_⟩ <;> decide

/-- C7.  `WaitMessage` raises the `MessageRetrievalError`
`ApplicationException` if and only if the blocking `GetMessageW` call
returns `-1`; when it does not fail, the retrieved record is translated
and dispatched and no exception is raised. -/
theorem c7_waitMessage_raises_iff_getMessage_fails (p : Platform) (r : Int) (m : MSG) :
    ((Application.WaitMessage p r m).2 =
        .error (ApplicationException.construct
          "Failed to get a message (GetMessageW)" p.lastError) ↔ r = -1) ∧
    ((Application.WaitMessage p r m).2 = .ok () ↔ r ≠ -1) ∧
    (r ≠ -1 → (Application.WaitMessage p r m).1 =
      [Event.getMessageW, Event.translateMessage m, Event.dispatchMessageW m]) := by
  by_cases h : r = -1 <;> simp [Application.WaitMessage, h]

/-- C7 witness: on `samplePlatform`, a `GetMessageW` return of `5` does not
raise, and a return of `-1` raises the retrieval-error exception. -/
theorem c7_waitMessage_raises_iff_getMessage_fails_witness :
    (Application.WaitMessage samplePlatform 5 MSG.zero).2 = .ok () ∧
    (Application.WaitMessage samplePlatform (-1) MSG.zero).2 =
      .error (ApplicationException.construct
        "Failed to get a message (GetMessageW)" samplePlatform.lastError) :=
  ⟨((c7_waitMessage_raises_iff_getMessage_fails samplePlatform 5 MSG.zero).2.1).mpr (by decide),
   ((c7_waitMessage_raises_iff_getMessage_fails samplePlatform (-1) MSG.zero).1).mpr rfl⟩

/-- C10.  When `GetMessageW` returns `0` (the quit signal), `WaitMessage`
does not raise: it still translates and dispatches the retrieved record
and returns normally, so the caller learns of loop termination only by
inspecting the queue by other means. -/
theorem c10_waitMessage_quit_return_dispatches_normally (p : Platform) (m : MSG) :
    Application.WaitMessage p 0 m =
      ([Event.getMessageW, Event.translateMessage m, Event.dispatchMessageW m], .ok ()) := by
  simp [Application.WaitMessage]

/-- C8.  The formatted diagnostic of an `ApplicationException` contains
both the supplied description and the platform error code sampled at
construction time, and both report actions surface exactly that string
regardless of the platform's last-error value at report time. -/
theorem c8_exception_message_contains_description_and_ctor_code
    (desc : String) (errAtCtor : Nat) :
    (∃ a b : String,
      (ApplicationException.construct desc errAtCtor).m_info = a ++ desc ++ b) ∧
    (∃ a b : String,
      (ApplicationException.construct desc errAtCtor).m_info = a ++ toString errAtCtor ++ b) ∧
    (∀ rt : Nat,
      (ApplicationException.construct desc errAtCtor).ShowMessageBox rt =
        desc ++ " | Error code : " ++ toString errAtCtor) ∧
    (∀ rt : Nat,
      (ApplicationException.construct desc errAtCtor).ShowDebugOutput rt =
        desc ++ " | Error code : " ++ toString errAtCtor) := by
  refine ⟨⟨"", " | Error code : " ++ toString errAtCtor, ?_⟩,
          ⟨desc ++ " | Error code : ", "", ?_⟩, fun _ => rfl, fun _ => rfl⟩
  · simp [ApplicationException.construct, String.empty_append, String.append_assoc]
  · simp [ApplicationException.construct, String.append_empty]

/-- C9.  A message other than `WM_NCCREATE` delivered to a window whose
user-data slot holds no shell association (`GetWindowLongPtr` returns `0`)
invokes no hook: the call consists of exactly the `DefWindowProc`
fall-through, returning its result, and leaves the slot empty. -/
theorem c9_no_association_falls_through_to_default
    (p : Platform) (hooks : HookSpec) (cp hWnd uMsg wParam lParam : Nat)
    (h : uMsg ≠ WM_NCCREATE) :
    WndProc p hooks 0 cp hWnd uMsg wParam lParam =
      ⟨[Event.defWindowProc hWnd uMsg], .ok p.defWindowProcRet, 0, none⟩ := by
  simp [WndProc, h]

/-- C9 witness: a `WM_CLOSE` delivered with an empty user-data slot on
`samplePlatform` ends in the bare `DefWindowProc` call. -/
theorem c9_no_association_falls_through_to_default_witness :
    WM_CLOSE ≠ WM_NCCREATE ∧
    WndProc samplePlatform HookSpec.base 0 0 7 WM_CLOSE 0 0 =
      ⟨[Event.defWindowProc 7 WM_CLOSE], .ok samplePlatform.defWindowProcRet, 0, none⟩ :=
  ⟨by decide,
   c9_no_association_falls_through_to_default samplePlatform HookSpec.base 0 7 WM_CLOSE 0 0
     (by decide)⟩

/-- C4.  When `RegisterClassW` fails, the constructor throws the
registration-error `ApplicationException` and makes no `CreateWindowExW`
call. -/
theorem c4_registration_failure_aborts_before_creation
    (p : Platform) (hooks : HookSpec) (selfPtr : Nat)
    (h : p.registerClassOk = false) :
    Application.construct p hooks selfPtr =
      ([Event.registerClassW],
       .error (.appExn (ApplicationException.construct registrationErrorInfo p.lastError))) ∧
    Event.createWindowExW ∉ (Application.construct p hooks selfPtr).1 := by
  refine ⟨by simp [Application.construct, h], ?_⟩
  simp [Application.construct, h]

/-- C4 witness: on `samplePlatformRegFail` construction raises the
registration error and the trace holds no creation attempt. -/
theorem c4_registration_failure_aborts_before_creation_witness :
    samplePlatformRegFail.registerClassOk = false ∧
    (Application.construct samplePlatformRegFail HookSpec.base 1 =
      ([Event.registerClassW],
       .error (.appExn (ApplicationException.construct registrationErrorInfo
         samplePlatformRegFail.lastError))) ∧
     Event.createWindowExW ∉ (Application.construct samplePlatformRegFail HookSpec.base 1).1) :=
  ⟨rfl, c4_registration_failure_aborts_before_creation samplePlatformRegFail HookSpec.base 1 rfl⟩

/-- C2 counterexample.  The claim asserts `EndPaint` runs even when
`OnPaint` raises.  With a shell associated (slot `1`) and an `OnPaint`
override that throws, the `WM_PAINT` dispatch opens the paint session and
invokes the hook, but the exception propagates before the `EndPaint` call:
the close is not executed. -/
theorem c2_paint_throw_skips_endPaint :
    (WndProc samplePlatform throwingPaintHooks 1 0 7 WM_PAINT 0 0).ret = .error () ∧
    Event.beginPaint 7 ∈ (WndProc samplePlatform throwingPaintHooks 1 0 7 WM_PAINT 0 0).events ∧
    Event.onPaint samplePlatform.beginPaintHDC ∈
      (WndProc samplePlatform throwingPaintHooks 1 0 7 WM_PAINT 0 0).events ∧
    Event.endPaint 7 ∉ (WndProc samplePlatform throwingPaintHooks 1 0 7 WM_PAINT 0 0).events := by
  refine ⟨rfl, ?_, ?_, ?_⟩ <;> decide

/-- C2 as amended.  Dispatching `WM_PAINT` to an associated shell invokes
`OnPaint` exactly once, with `BeginPaint` before it; `EndPaint` runs after
the hook only when `OnPaint` returns normally — when it raises, the
exception propagates and the paint session is not closed. -/
theorem c2_paint_brackets_hook_when_it_returns
    (p : Platform) (hooks : HookSpec) (slot cp hWnd wParam lParam : Nat)
    (h : slot ≠ 0) :
    (hooks.onPaintThrows = false →
      (WndProc p hooks slot cp hWnd WM_PAINT wParam lParam).events =
        [Event.beginPaint hWnd, Event.onPaint p.beginPaintHDC, Event.endPaint hWnd] ∧
      (WndProc p hooks slot cp hWnd WM_PAINT wParam lParam).ret = .ok 1) ∧
    (hooks.onPaintThrows = true →
      (WndProc p hooks slot cp hWnd WM_PAINT wParam lParam).events =
        [Event.beginPaint hWnd, Event.onPaint p.beginPaintHDC] ∧
      (WndProc p hooks slot cp hWnd WM_PAINT wParam lParam).ret = .error ()) := by
  by_cases ht : hooks.onPaintThrows <;>
    simp [WndProc, h, ht, WM_NCCREATE, WM_PAINT]

/-- C2 witness: with the base (non-throwing) hooks and slot `1`, the
`WM_PAINT` trace is begin, hook, end, returning `TRUE`. -/
theorem c2_paint_brackets_hook_when_it_returns_witness :
    (1 : Nat) ≠ 0 ∧
    ((WndProc samplePlatform HookSpec.base 1 0 7 WM_PAINT 0 0).events =
      [Event.beginPaint 7, Event.onPaint samplePlatform.beginPaintHDC, Event.endPaint 7] ∧
     (WndProc samplePlatform HookSpec.base 1 0 7 WM_PAINT 0 0).ret = .ok 1) :=
  ⟨by decide,
   (c2_paint_brackets_hook_when_it_returns samplePlatform HookSpec.base 1 0 7 0 0
     (by decide)).1 rfl⟩

/-- C3 counterexample.  The claim asserts the quit signal is posted even
when `OnClose` raises.  With a shell associated and an `OnClose` override
that throws, the `WM_CLOSE` dispatch invokes the hook but the exception
propagates before the `PostQuitMessage(0)` call: no quit signal is
posted. -/
theorem c3_close_throw_skips_postQuit :
    (WndProc samplePlatform throwingCloseHooks 1 0 7 WM_CLOSE 0 0).ret = .error () ∧
    Event.onClose ∈ (WndProc samplePlatform throwingCloseHooks 1 0 7 WM_CLOSE 0 0).events ∧
    Event.postQuitMessage 0 ∉
      (WndProc samplePlatform throwingCloseHooks 1 0 7 WM_CLOSE 0 0).events := by
  refine ⟨rfl, ?_, ?_⟩ <;> decide

/-- C3 as amended.  Dispatching `WM_CLOSE` to an associated shell invokes
`OnClose` exactly once; the quit signal is posted exactly when `OnClose`
returns normally — when it raises, the exception propagates and no quit
signal is posted. -/
theorem c3_close_posts_quit_when_hook_returns
    (p : Platform) (hooks : HookSpec) (slot cp hWnd wParam lParam : Nat)
    (h : slot ≠ 0) :
    (hooks.onCloseThrows = false →
      (WndProc p hooks slot cp hWnd WM_CLOSE wParam lParam).events =
        [Event.onClose, Event.postQuitMessage 0] ∧
      (WndProc p hooks slot cp hWnd WM_CLOSE wParam lParam).ret = .ok 1) ∧
    (hooks.onCloseThrows = true →
      (WndProc p hooks slot cp hWnd WM_CLOSE wParam lParam).events = [Event.onClose] ∧
      (WndProc p hooks slot cp hWnd WM_CLOSE wParam lParam).ret = .error ()) := by
  by_cases ht : hooks.onCloseThrows <;>
    simp [WndProc, h, ht, WM_NCCREATE, WM_PAINT, WM_KEYDOWN, WM_KEYUP, WM_LBUTTONDOWN,
      WM_MBUTTONDOWN, WM_RBUTTONDOWN, WM_LBUTTONUP, WM_MBUTTONUP, WM_RBUTTONUP,
      WM_MOUSEMOVE, WM_CLOSE]

/-- C3 witness: with the base (non-throwing) hooks and slot `1`, the
`WM_CLOSE` trace is the hook followed by the quit signal. -/
theorem c3_close_posts_quit_when_hook_returns_witness :
    (1 : Nat) ≠ 0 ∧
    ((WndProc samplePlatform HookSpec.base 1 0 7 WM_CLOSE 0 0).events =
      [Event.onClose, Event.postQuitMessage 0] ∧
     (WndProc samplePlatform HookSpec.base 1 0 7 WM_CLOSE 0 0).ret = .ok 1) :=
  ⟨by decide,
   (c3_close_posts_quit_when_hook_returns samplePlatform HookSpec.base 1 0 7 0 0
     (by decide)).1 rfl⟩

/-- C6.  A message id outside the routed set (and other than the specially
handled `WM_NCCREATE`), dispatched to an associated shell, invokes
`HandleOtherMessages`; when the hook reports the message handled (`TRUE`)
no `DefWindowProc` call occurs and `TRUE` is returned, and when it reports
it unhandled (`FALSE`) the call falls through to `DefWindowProc` and
returns its result. -/
theorem c6_unrouted_message_goes_to_handleOther
    (p : Platform) (hooks : HookSpec) (slot cp hWnd uMsg wParam lParam : Nat)
    (hs : slot ≠ 0) (hnc : uMsg ≠ WM_NCCREATE) (hr : uMsg ∉ routedMessages) :
    Event.handleOtherMessages uMsg ∈ (WndProc p hooks slot cp hWnd uMsg wParam lParam).events ∧
    (hooks.handleOtherMessages uMsg = .ok true →
      (WndProc p hooks slot cp hWnd uMsg wParam lParam).events =
        [Event.handleOtherMessages uMsg] ∧
      (WndProc p hooks slot cp hWnd uMsg wParam lParam).ret = .ok 1) ∧
    (hooks.handleOtherMessages uMsg = .ok false →
      (WndProc p hooks slot cp hWnd uMsg wParam lParam).events =
        [Event.handleOtherMessages uMsg, Event.defWindowProc hWnd uMsg] ∧
      (WndProc p hooks slot cp hWnd uMsg wParam lParam).ret = .ok p.defWindowProcRet) := by
  simp only [routedMessages, List.mem_cons, List.not_mem_nil, or_false, not_or] at hr
  obtain ⟨h1, h2, h3, h4, h5, h6, h7, h8, h9, h10, h11⟩ := hr
  cases hh : hooks.handleOtherMessages uMsg with
  | error e => cases e; simp [WndProc, hs, hnc, h1, h2, h3, h4, h5, h6, h7, h8, h9, h10, h11, hh]
  | ok b => cases b <;>
      simp [WndProc, hs, hnc, h1, h2, h3, h4, h5, h6, h7, h8, h9, h10, h11, hh]

/-- C6 witness: message id `2` (outside the routed set) with a hook
reporting it handled yields the bare hook invocation and `TRUE`. -/
theorem c6_unrouted_message_goes_to_handleOther_witness :
    (1 : Nat) ≠ 0 ∧ (2 : Nat) ≠ WM_NCCREATE ∧ (2 : Nat) ∉ routedMessages ∧
    ((WndProc samplePlatform handledHooks 1 0 7 2 0 0).events =
      [Event.handleOtherMessages 2] ∧
     (WndProc samplePlatform handledHooks 1 0 7 2 0 0).ret = .ok 1) :=
  ⟨by decide, by decide, by decide,
   (c6_unrouted_message_goes_to_handleOther samplePlatform handledHooks 1 0 7 2 0 0
     (by decide) (by decide) (by decide)).2.1 rfl⟩

/-- On `WM_NCCREATE`, `WndProc` stores the creation parameter (the shell
pointer) in the window's user-data slot and writes the delivered handle
into the shell's `m_hWnd`, whatever the hooks do afterwards. -/
theorem wndProc_nccreate_association
    (p : Platform) (hooks : HookSpec) (slot cp hWnd wParam lParam : Nat) :
    (WndProc p hooks slot cp hWnd WM_NCCREATE wParam lParam).slotAfter = cp ∧
    (WndProc p hooks slot cp hWnd WM_NCCREATE wParam lParam).hWndWrite = some hWnd := by
  by_cases hcp : cp = 0
  · simp [WndProc, hcp]
  · cases hh : hooks.handleOtherMessages WM_NCCREATE with
    | error e =>
      cases e
      simp only [WM_NCCREATE] at hh
      simp [WndProc, hcp, hh, WM_NCCREATE, WM_PAINT, WM_KEYDOWN, WM_KEYUP,
        WM_LBUTTONDOWN, WM_MBUTTONDOWN, WM_RBUTTONDOWN, WM_LBUTTONUP, WM_MBUTTONUP,
        WM_RBUTTONUP, WM_MOUSEMOVE, WM_CLOSE]
    | ok b =>
      simp only [WM_NCCREATE] at hh
      cases b <;> simp [WndProc, hcp, hh, WM_NCCREATE, WM_PAINT, WM_KEYDOWN, WM_KEYUP,
        WM_LBUTTONDOWN, WM_MBUTTONDOWN, WM_RBUTTONDOWN, WM_LBUTTONUP, WM_MBUTTONUP,
        WM_RBUTTONUP, WM_MOUSEMOVE, WM_CLOSE]

/-- C5.  Whenever construction returns normally, the shell's window handle
is non-null, equal to the handle `CreateWindowExW` assigned — the same
handle the platform supplied to the `WM_NCCREATE` notification, whose
back-fill wrote that very value — and the window's user-data slot holds
the shell pointer. -/
theorem c5_successful_construction_establishes_association
    (p : Platform) (hooks : HookSpec) (selfPtr : Nat) (evs : List Event) (s : ShellState)
    (h : Application.construct p hooks selfPtr = (evs, .ok s)) :
    s.m_hWnd ≠ 0 ∧ s.m_hWnd = p.createdHWnd ∧
    (WndProc p hooks 0 selfPtr p.createdHWnd WM_NCCREATE 0 0).hWndWrite = some s.m_hWnd ∧
    s.slot = selfPtr := by
  by_cases h1 : p.registerClassOk = false
  · simp [Application.construct, h1] at h
  · by_cases h2 : p.createdHWnd = 0
    · simp [Application.construct, h1, h2] at h
    · have ha := wndProc_nccreate_association p hooks 0 selfPtr p.createdHWnd 0 0
      rcases hnc : (WndProc p hooks 0 selfPtr p.createdHWnd WM_NCCREATE 0 0).ret with e | v
      · cases e
        simp [Application.construct, h1, h2, hnc] at h
      · simp [Application.construct, h1, h2, hnc] at h
        obtain ⟨-, hs⟩ := h
        subst hs
        exact ⟨h2, rfl, ha.2, ha.1⟩

/-- C5 witness: constructing on `samplePlatform` with the base hooks and
shell pointer `1` succeeds with handle `7`, instance `3`, slot `1`, and the
theorem's conclusions hold of that concrete outcome. -/
theorem c5_successful_construction_establishes_association_witness :
    (⟨3, 7, 1⟩ : ShellState).m_hWnd ≠ 0 ∧
    (⟨3, 7, 1⟩ : ShellState).m_hWnd = samplePlatform.createdHWnd ∧
    (WndProc samplePlatform HookSpec.base 0 1 samplePlatform.createdHWnd
      WM_NCCREATE 0 0).hWndWrite = some (⟨3, 7, 1⟩ : ShellState).m_hWnd ∧
    (⟨3, 7, 1⟩ : ShellState).slot = 1 :=
  c5_successful_construction_establishes_association samplePlatform HookSpec.base 1
    [Event.registerClassW, Event.createWindowExW, Event.setWindowLongPtr 7 1,
     Event.handleOtherMessages WM_NCCREATE, Event.defWindowProc 7 WM_NCCREATE,
     Event.showWindow 7]
    ⟨3, 7, 1⟩ rfl

end SWL
